import Mathlib

/-!
Verification of the omni-robin/omni_torus_scraper repository (two near-duplicate
Python sources, `src/reddit_scraper_api.py` and `src/main.py`) against its
natural-language specification.

Shallow embedding conventions:
- A praw `Submission` is a record of exactly the fields the code reads; `None`
  values become `Option`, Python strings become `String`, Python ints become `Int`.
- Python dictionaries produced by `prepare_post_data` are association lists
  `List (String × Val)` in insertion order, with `Val` a small JSON-ish value type.
- Python truthiness of optional-list fields (`if filters.subreddits:`) is the
  explicit `truthyList`; truthiness of an optional string (`TORUS_MEMORY_URL`)
  is `truthyStr`.
- `str.lower()` is modelled by `pyLower` (character-wise lowercase), and the
  Python substring test `a in b` by `strContains`.
- Exception-raising reads of individual comment bodies are modelled by
  `Option String` entries in `Submission.commentBodies` (`none` = the read
  raises and the `except` branch logs and skips it).
- Network effects (WebSocket sends, archival POSTs) are returned as data:
  the per-item dispatcher body returns the list of sends and the list of
  archival POST bodies it performs.
-/

namespace Scraper

/-- JSON-ish values stored in the projected post dictionaries built by
`prepare_post_data` (string, integer, boolean, `None`, or list of strings). -/
inductive Val where
  | s (v : String)
  | i (v : Int)
  | b (v : Bool)
  | null
  | list (v : List String)
deriving DecidableEq

/-- Snapshot of a `praw.models.Submission` restricted to the fields the two
source files read.  `link_flair_text` and `author` are `none` when the
attribute is `None` (or, for flair, missing).  `commentBodies` is the sequence
of top-level comment bodies in iteration order of `submission.comments`, with
`none` marking a comment whose `body` read raises. -/
structure Submission where
  id : String
  title : String
  selftext : String
  url : String
  score : Int
  subreddit : String
  author : Option String
  created_utc : Int
  over_18 : Bool
  is_self : Bool
  link_flair_text : Option String
  num_comments : Int
  commentBodies : List (Option String)
deriving DecidableEq

/-- The pydantic `FilterParams` model, identical in both source files
(`src/reddit_scraper_api.py` lines 79-114, `src/main.py` lines 78-113):
eight fields, each a plain `Field(default=...)` with no range constraint. -/
structure FilterParams where
  subreddits : Option (List String) := none
  keywords : Option (List String) := none
  min_score : Option Int := none
  include_nsfw : Bool := true
  is_self : Option Bool := none
  flair : Option (List String) := none
  fetch_comments : Bool := false
  comments_limit : Int := 5
deriving DecidableEq

/-- Pydantic construction `FilterParams(...)` from typed field values.  The
source declares every field as a bare `Field(default=...)`: no validator and no
range constraint is present, so validation of well-typed inputs always
succeeds, whatever the integer `comments_limit` is. -/
def FilterParams.construct (subreddits : Option (List String))
    (keywords : Option (List String)) (min_score : Option Int)
    (include_nsfw : Bool) (is_self : Option Bool) (flair : Option (List String))
    (fetch_comments : Bool) (comments_limit : Int) : Except String FilterParams :=
  Except.ok
    { subreddits := subreddits, keywords := keywords, min_score := min_score,
      include_nsfw := include_nsfw, is_self := is_self, flair := flair,
      fetch_comments := fetch_comments, comments_limit := comments_limit }

/-- Python truthiness of an `Optional[List[str]]`: `None` and `[]` are falsy. -/
def truthyList (o : Option (List String)) : Bool :=
  match o with
  | none => false
  | some l => !l.isEmpty

/-- Python truthiness of an `Optional[str]`: `None` and `""` are falsy
(used for `TORUS_MEMORY_URL`). -/
def truthyStr (o : Option String) : Bool :=
  match o with
  | none => false
  | some u => !u.isEmpty

/-- Model of `str.lower()`: character-wise lowercase. -/
def pyLower (s : String) : String := String.mk (s.data.map Char.toLower)

/-- Bool-valued test that one character list starts another. -/
def listPrefixOf : List Char → List Char → Bool
  | [], _ => true
  | _ :: _, [] => false
  | a :: as, b :: bs => a == b && listPrefixOf as bs

/-- Bool-valued test that one character list occurs contiguously inside another. -/
def listInfixOf (needle hay : List Char) : Bool :=
  listPrefixOf needle hay ||
    match hay with
    | [] => false
    | _ :: t => listInfixOf needle t

/-- Model of the Python substring test `needle in hay`. -/
def strContains (hay needle : String) : Bool := listInfixOf needle.data hay.data

/-- Flair text normalization common to both files: the lower-cased flair text,
with the empty string substituted when the flair is absent or falsy
(`submission.link_flair_text.lower() if submission.link_flair_text else ""`). -/
def flair_text (submission : Submission) : String :=
  match submission.link_flair_text with
  | some t => if t == "" then "" else pyLower t
  | none => ""

end Scraper

namespace Scraper.Api

/-- Translation of `prepare_post_data` of `src/reddit_scraper_api.py` (lines 119-132): an
eight-key dictionary; `selftext` gets `or ""` (identity on strings), `flair` is
`(submission.link_flair_text or "")` when present and truthy, else `""`. -/
def prepare_post_data (submission : Submission) : List (String × Val) :=
  [("id", Val.s submission.id),
   ("title", Val.s submission.title),
   ("selftext", Val.s submission.selftext),
   ("url", Val.s submission.url),
   ("score", Val.i submission.score),
   ("subreddit", Val.s submission.subreddit),
   ("flair", Val.s (submission.link_flair_text.getD "")),
   ("num_comments", Val.i submission.num_comments)]

/-- Loop body of `get_comments` of `src/reddit_scraper_api.py` (lines 143-149):
`for i, comment in enumerate(submission.comments): if i >= limit: break;
try: comments.append(comment.body) except: log`.  A `none` body is the
raising read, caught and skipped while the index still advances. -/
def getCommentsAux : List (Option String) → Int → Int → List String
  | [], _, _ => []
  | c :: rest, i, limit =>
    if i ≥ limit then []
    else
      (match c with
       | some body => [body]
       | none => []) ++ getCommentsAux rest (i + 1) limit

/-- Translation of `get_comments` of `src/reddit_scraper_api.py` (lines 134-150).  The
`replace_more` call is effect-only (failures are caught and logged); the
returned list is built by the enumerate loop starting at index 0. -/
def get_comments (commentBodies : List (Option String)) (limit : Int) : List String :=
  getCommentsAux commentBodies 0 limit

/-- Translation of `matches_filters` of `src/reddit_scraper_api.py` (lines 152-181): a chain
of early `return False` checks, one per criteria dimension, ending in
`return True`. -/
def matches_filters (submission : Submission) (filters : FilterParams) : Bool :=
  if truthyList filters.subreddits &&
      !(((filters.subreddits.getD []).map pyLower).contains (pyLower submission.subreddit)) then
    false
  else if truthyList filters.keywords &&
      !((filters.keywords.getD []).any fun kw =>
          strContains (pyLower (submission.title ++ " " ++ submission.selftext)) (pyLower kw)) then
    false
  else if (match filters.min_score with
      | some m => decide (submission.score < m)
      | none => false) then
    false
  else if !filters.include_nsfw && submission.over_18 then
    false
  else if (match filters.is_self with
      | some b => b && !submission.is_self
      | none => false) then
    false
  else if (match filters.is_self with
      | some b => !b && submission.is_self
      | none => false) then
    false
  else if truthyList filters.flair &&
      !(((filters.flair.getD []).map pyLower).contains (flair_text submission)) then
    false
  else
    true

/-- Negation of the first early-return condition of `matches_filters`
(subreddit membership dimension). -/
def subredditOk (submission : Submission) (filters : FilterParams) : Bool :=
  !(truthyList filters.subreddits &&
    !(((filters.subreddits.getD []).map pyLower).contains (pyLower submission.subreddit)))

/-- Negation of the keyword early-return condition of `matches_filters`. -/
def keywordOk (submission : Submission) (filters : FilterParams) : Bool :=
  !(truthyList filters.keywords &&
    !((filters.keywords.getD []).any fun kw =>
        strContains (pyLower (submission.title ++ " " ++ submission.selftext)) (pyLower kw)))

/-- Negation of the minimum-score early-return condition of `matches_filters`. -/
def scoreOk (submission : Submission) (filters : FilterParams) : Bool :=
  !(match filters.min_score with
    | some m => decide (submission.score < m)
    | none => false)

/-- Negation of the NSFW early-return condition of `matches_filters`. -/
def nsfwOk (submission : Submission) (filters : FilterParams) : Bool :=
  !(!filters.include_nsfw && submission.over_18)

/-- Negation of the two self/link early-return conditions of `matches_filters`. -/
def selfOk (submission : Submission) (filters : FilterParams) : Bool :=
  !(match filters.is_self with
    | some b => b && !submission.is_self
    | none => false) &&
  !(match filters.is_self with
    | some b => !b && submission.is_self
    | none => false)

/-- Negation of the flair early-return condition of `matches_filters`. -/
def flairOk (submission : Submission) (filters : FilterParams) : Bool :=
  !(truthyList filters.flair &&
    !(((filters.flair.getD []).map pyLower).contains (flair_text submission)))

/-- Projection of a post as built inside the dispatch and scrape loops:
`data = prepare_post_data(...)`, then `data["comments"] = get_comments(...)`
when comments were requested. -/
def projectPost (fetch_comments : Bool) (comments_limit : Int)
    (submission : Submission) : List (String × Val) :=
  if fetch_comments then
    prepare_post_data submission ++
      [("comments", Val.list (get_comments submission.commentBodies comments_limit))]
  else
    prepare_post_data submission

/-- One entry of the `subscribers` registry of `src/reddit_scraper_api.py`
(line 404): the WebSocket handle (an abstract identifier here), the parsed
filter criteria, and the `do_not_save` archive opt-out flag. -/
structure Subscriber where
  ws : Nat
  filters : FilterParams
  do_not_save : Bool
deriving DecidableEq

/-- Mutable state of the subscriber loop in `reddit_stream_worker`
(`src/reddit_scraper_api.py` lines 226-243): the sends performed so far and
the three archival aggregates. -/
structure LoopState where
  sends : List (Nat × List (String × Val))
  store_needed : Bool
  any_fetch : Bool
  max_comments : Int
deriving DecidableEq

/-- Body of the `for subscriber in current_subscribers` loop of
`reddit_stream_worker` (`src/reddit_scraper_api.py` lines 230-243). -/
def subscriberStep (submission : Submission) (st : LoopState)
    (subscriber : Subscriber) : LoopState :=
  if matches_filters submission subscriber.filters then
    let sends := st.sends ++
      [(subscriber.ws,
        projectPost subscriber.filters.fetch_comments
          subscriber.filters.comments_limit submission)]
    if !subscriber.do_not_save then
      if subscriber.filters.fetch_comments then
        { sends := sends, store_needed := true, any_fetch := true,
          max_comments :=
            if subscriber.filters.comments_limit > st.max_comments then
              subscriber.filters.comments_limit
            else st.max_comments }
      else
        { sends := sends, store_needed := true, any_fetch := st.any_fetch,
          max_comments := st.max_comments }
    else
      { st with sends := sends }
  else
    st

/-- Per-item body of `reddit_stream_worker` (`src/reddit_scraper_api.py`
lines 222-253): iterate the registry snapshot accumulating sends and the
archival aggregates, then make one archival POST of the re-projected item when
`store_needed` and the sink URL is truthy.  The returned pair is the final
loop state and the list of archival POST bodies performed for this item. -/
def reddit_stream_worker_step (torus : Option String) (subs : List Subscriber)
    (submission : Submission) : LoopState × List (List (String × Val)) :=
  let st := subs.foldl (subscriberStep submission) ⟨[], false, false, 0⟩
  let posts :=
    if st.store_needed && truthyStr torus then
      [projectPost st.any_fetch st.max_comments submission]
    else []
  (st, posts)

/-- Matching subscribers of the snapshot whose archive opt-out is false
(the subscribers that drive `store_needed`). -/
def matchingNonOpt (submission : Submission) (subs : List Subscriber) :
    List Subscriber :=
  subs.filter fun b => matches_filters submission b.filters && !b.do_not_save

/-- Comments limits requested by the non-opted-out matching subscribers that
set `fetch_comments`, in snapshot order. -/
def fetchLimits (submission : Submission) (subs : List Subscriber) : List Int :=
  ((matchingNonOpt submission subs).filter fun b => b.filters.fetch_comments).map
    fun b => b.filters.comments_limit

/-- Outbound traffic of a subscription session, observable at the transport. -/
inductive WsEvent where
  | sent (payload : List (String × Val))
  | closed
deriving DecidableEq

/-- Error message of `websocket_subscribe` (`src/reddit_scraper_api.py`
line 398). -/
def invalid_payload_msg : String := "Invalid JSON payload for filter parameters."

/-- Translation of `websocket_subscribe` of `src/reddit_scraper_api.py` (lines 386-407) up to
the registration point.  `received` is the outcome of the guarded prefix
`receive_json(); pop("do_not_save"); FilterParams(**filters_data)` — the
receive and the pydantic validation are library collaborators, so only their
joint success (criteria plus opt-out flag) or failure is modelled.  On failure
the session sends the structured error object, closes, and returns without
touching the registry; on success it appends exactly one subscriber. -/
def websocket_subscribe (registry : List Subscriber) (ws : Nat)
    (received : Except String (FilterParams × Bool)) :
    List Subscriber × List WsEvent :=
  match received with
  | Except.error _ =>
      (registry, [WsEvent.sent [("error", Val.s invalid_payload_msg)], WsEvent.closed])
  | Except.ok (filters, do_not_save) =>
      (registry ++ [{ ws := ws, filters := filters, do_not_save := do_not_save }], [])

/-- Keys of the `sort_methods` dictionary of `scrape`
(`src/reddit_scraper_api.py` lines 348-353). -/
def sort_keys : List String := ["hot", "new", "top", "rising"]

/-- Detail message of the HTTP 400 raised by `scrape` on an unknown sort
(`src/reddit_scraper_api.py` lines 356-359). -/
def invalid_sort_msg : String :=
  "Invalid sort_by parameter. Use \x27hot\x27, \x27new\x27, \x27top\x27, or \x27rising\x27."

/-- Result-collection loop of `scrape` (`src/reddit_scraper_api.py` lines
362-370, identical in `src/main.py` lines 312-320): append the projection of
each matching post and break once `len(results) >= limit`. -/
def scrapeLoop (filters : FilterParams) (fetch_comments : Bool)
    (comments_limit : Int) (limit : Int) :
    List Submission → List (List (String × Val)) → List (List (String × Val))
  | [], results => results
  | post :: rest, results =>
    if matches_filters post filters then
      let results2 := results ++ [projectPost fetch_comments comments_limit post]
      if (results2.length : Int) ≥ limit then results2
      else scrapeLoop filters fetch_comments comments_limit limit rest results2
    else scrapeLoop filters fetch_comments comments_limit limit rest results

/-- The `/scrape` handler (`src/reddit_scraper_api.py` lines 343-380) from
sort validation on: `upstream` stands for the selected praw listing method,
keyed by the lower-cased sort name and called with `limit * 2`; an unknown
sort raises HTTP 400 with the fixed detail message, otherwise the collection
loop runs over the pulled posts. -/
def scrape (upstream : String → Int → List Submission) (filters : FilterParams)
    (fetch_comments : Bool) (comments_limit : Int) (sort_by : String)
    (limit : Int) : Except (Nat × String) (List (List (String × Val))) :=
  if !(sort_keys.contains (pyLower sort_by)) then
    Except.error (400, invalid_sort_msg)
  else
    Except.ok (scrapeLoop filters fetch_comments comments_limit limit
      (upstream (pyLower sort_by) (limit * 2)) [])

end Scraper.Api

namespace Scraper.MainPy

/-- Translation of `prepare_post_data` of `src/main.py` (lines 118-135): a twelve-key
dictionary with `author` (stringified, `None` when absent) and `flair`
(`link_flair_text` verbatim, `None` when absent). -/
def prepare_post_data (submission : Submission) : List (String × Val) :=
  [("id", Val.s submission.id),
   ("title", Val.s submission.title),
   ("selftext", Val.s submission.selftext),
   ("url", Val.s submission.url),
   ("score", Val.i submission.score),
   ("subreddit", Val.s submission.subreddit),
   ("author", match submission.author with
              | some a => Val.s a
              | none => Val.null),
   ("created_utc", Val.i submission.created_utc),
   ("over_18", Val.b submission.over_18),
   ("is_self", Val.b submission.is_self),
   ("flair", match submission.link_flair_text with
             | some t => Val.s t
             | none => Val.null),
   ("num_comments", Val.i submission.num_comments)]

/-- Translation of `matches_filters` of `src/main.py` (lines 151-186): same dimension checks
as the api file, with the self/link test written as a single `!=` comparison. -/
def matches_filters (submission : Submission) (filters : FilterParams) : Bool :=
  if truthyList filters.subreddits &&
      !(((filters.subreddits.getD []).map pyLower).contains (pyLower submission.subreddit)) then
    false
  else if truthyList filters.keywords &&
      !((filters.keywords.getD []).any fun kw =>
          strContains (pyLower (submission.title ++ " " ++ submission.selftext)) (pyLower kw)) then
    false
  else if (match filters.min_score with
      | some m => decide (submission.score < m)
      | none => false) then
    false
  else if !filters.include_nsfw && submission.over_18 then
    false
  else if (match filters.is_self with
      | some b => submission.is_self != b
      | none => false) then
    false
  else if truthyList filters.flair &&
      !(((filters.flair.getD []).map pyLower).contains (flair_text submission)) then
    false
  else
    true

end Scraper.MainPy

namespace Scraper

/-- The two files compute the same filter predicate on the modelled submission
fields: the only textual difference is the self/link dimension, written as two
early returns in the api file and one `!=` comparison in `main.py`. -/
theorem matches_filters_agree (s : Submission) (f : FilterParams) :
    MainPy.matches_filters s f = Api.matches_filters s f := by
  unfold MainPy.matches_filters Api.matches_filters
  cases f.is_self with
  | none => rfl
  | some b => cases b <;> cases s.is_self <;> rfl

/-- Bool helper: an early `return False` guarded by `c` followed by the rest
of the chain is the conjunction `!c && rest`. -/
theorem bool_ite_false (c r : Bool) : (if c then false else r) = (!c && r) := by
  cases c <;> simp

/-- Conjunction form of `matches_filters`: it equals the product of its six dimension checks. -/
theorem matches_filters_conj (s : Submission) (f : FilterParams) :
    Api.matches_filters s f =
      (Api.subredditOk s f && Api.keywordOk s f && Api.scoreOk s f &&
        Api.nsfwOk s f && Api.selfOk s f && Api.flairOk s f) := by
  unfold Api.matches_filters Api.subredditOk Api.keywordOk Api.scoreOk
    Api.nsfwOk Api.selfOk Api.flairOk
  simp only [bool_ite_false, Bool.and_true, Bool.and_assoc]

/-- In Python, `x if x > a else a` is `max a x`. -/
theorem pymax_eq (a x : Int) : (if x > a then x else a) = max a x := by
  rcases le_or_lt x a with h | h
  · rw [if_neg (not_lt.mpr h), max_eq_left h]
  · rw [if_pos h, max_eq_right h.le]

/-- Folding `max` commutes with joining the seed. -/
theorem foldl_max_shift : ∀ (l : List Int) (a b : Int),
    l.foldl max (max a b) = max a (l.foldl max b) := by
  intro l
  induction l with
  | nil => intro a b; rfl
  | cons x xs ih =>
    intro a b
    rw [List.foldl_cons, List.foldl_cons, max_assoc, ih]

/-- Maximum of a list of integers (`none` on the empty list). -/
def listMax : List Int → Option Int
  | [] => none
  | x :: xs => some (xs.foldl max x)

/-- Folding `max` from any seed lands on `max seed (listMax l)`. -/
theorem foldl_max_of_listMax : ∀ (l : List Int) (a m : Int),
    listMax l = some m → l.foldl max a = max a m := by
  intro l a m h
  cases l with
  | nil => simp [listMax] at h
  | cons x xs =>
    simp only [listMax, Option.some.injEq] at h
    rw [List.foldl_cons, ← h, ← foldl_max_shift]

/-- The value of `listMax` really is the maximum: it belongs to the list and bounds it. -/
theorem listMax_spec : ∀ (l : List Int) (m : Int),
    listMax l = some m → m ∈ l ∧ ∀ y ∈ l, y ≤ m := by
  have key : ∀ (xs : List Int) (a : Int),
      xs.foldl max a ∈ a :: xs ∧ ∀ y ∈ a :: xs, y ≤ xs.foldl max a := by
    intro xs
    induction xs with
    | nil => intro a; simp
    | cons x xs ih =>
      intro a
      rw [List.foldl_cons]
      obtain ⟨hmem, hub⟩ := ih (max a x)
      rw [List.mem_cons] at hmem
      have hbound : max a x ≤ xs.foldl max (max a x) :=
        hub _ (List.mem_cons_self _ _)
      constructor
      · rw [List.mem_cons, List.mem_cons]
        rcases hmem with hmem | hmem
        · rcases max_choice a x with hc | hc
          · left; rw [hmem, hc]
          · right; left; rw [hmem, hc]
        · right; right; exact hmem
      · intro y hy
        rw [List.mem_cons, List.mem_cons] at hy
        rcases hy with hy | hy | hy
        · rw [hy]; exact le_trans (le_max_left a x) hbound
        · rw [hy]; exact le_trans (le_max_right a x) hbound
        · exact hub y (List.mem_cons_of_mem _ hy)
  intro l m h
  cases l with
  | nil => simp [listMax] at h
  | cons x xs =>
    simp only [listMax, Option.some.injEq] at h
    obtain ⟨hmem, hub⟩ := key xs x
    rw [h] at hmem hub
    exact ⟨hmem, hub⟩

/-- Characterization of the `scrape` collection loop: while fewer than `limit`
results are collected it appends the projections of the matching posts, in
order, until `limit` results are reached or the posts run out. -/
theorem scrapeLoop_eq (f : FilterParams) (fc : Bool) (cl limit : Int) :
    ∀ (posts : List Submission) (results : List (List (String × Val))),
      (results.length : Int) < limit →
      Api.scrapeLoop f fc cl limit posts results =
        results ++ (((posts.filter fun p => Api.matches_filters p f).map
          (Api.projectPost fc cl)).take (limit.toNat - results.length)) := by
  intro posts
  induction posts with
  | nil =>
    intro results h
    simp [Api.scrapeLoop]
  | cons post rest ih =>
    intro results h
    cases hm : Api.matches_filters post f with
    | false =>
      have hfc : List.filter (fun p => Api.matches_filters p f) (post :: rest) =
          List.filter (fun p => Api.matches_filters p f) rest := by
        simp [List.filter_cons, hm]
      simp only [Api.scrapeLoop]
      rw [if_neg (by simp [hm]), ih results h, hfc]
    | true =>
      have hfc : List.filter (fun p => Api.matches_filters p f) (post :: rest) =
          post :: List.filter (fun p => Api.matches_filters p f) rest := by
        simp [List.filter_cons, hm]
      simp only [Api.scrapeLoop]
      rw [if_pos hm, hfc, List.map_cons]
      by_cases hb : ((results ++ [Api.projectPost fc cl post]).length : Int) ≥ limit
      · rw [if_pos hb]
        have h1 : limit.toNat - results.length = 1 := by
          rw [List.length_append, List.length_cons, List.length_nil] at hb
          push_cast at hb
          omega
        rw [h1, List.take_succ_cons, List.take_zero]
      · rw [if_neg hb]
        have hlt : (((results ++ [Api.projectPost fc cl post]).length : Int)) < limit :=
          lt_of_not_ge hb
        rw [ih _ hlt]
        have hlen2 : (results ++ [Api.projectPost fc cl post]).length =
            results.length + 1 := by
          rw [List.length_append, List.length_cons, List.length_nil]
        have h2 : limit.toNat - results.length =
            (limit.toNat - (results.length + 1)) + 1 := by
          rw [hlen2] at hlt
          push_cast at hlt
          omega
        rw [hlen2, h2, List.take_succ_cons, List.append_assoc]
        rfl

/-- Characterization of the subscriber loop of `reddit_stream_worker`: the
fold appends one send per matching subscriber and computes the three archival
aggregates from the non-opted-out matching subscribers. -/
theorem foldl_subscriberStep_eq (submission : Submission) :
    ∀ (subs : List Api.Subscriber) (st : Api.LoopState),
      subs.foldl (Api.subscriberStep submission) st =
        { sends := st.sends ++
            ((subs.filter fun b => Api.matches_filters submission b.filters).map
              fun b => (b.ws, Api.projectPost b.filters.fetch_comments
                b.filters.comments_limit submission)),
          store_needed := st.store_needed || !(Api.matchingNonOpt submission subs).isEmpty,
          any_fetch := st.any_fetch || !(Api.fetchLimits submission subs).isEmpty,
          max_comments := (Api.fetchLimits submission subs).foldl max st.max_comments } := by
  intro subs
  induction subs with
  | nil =>
    intro st
    simp [Api.matchingNonOpt, Api.fetchLimits]
  | cons b rest ih =>
    intro st
    rw [List.foldl_cons, ih]
    cases hm : Api.matches_filters submission b.filters with
    | false =>
      simp [Api.subscriberStep, hm, Api.matchingNonOpt, Api.fetchLimits,
        List.filter_cons]
    | true =>
      cases hd : b.do_not_save with
      | true =>
        simp [Api.subscriberStep, hm, hd, Api.matchingNonOpt, Api.fetchLimits,
          List.filter_cons]
      | false =>
        cases hf : b.filters.fetch_comments with
        | false =>
          simp [Api.subscriberStep, hm, hd, hf, Api.matchingNonOpt,
            Api.fetchLimits, List.filter_cons]
        | true =>
          simp [Api.subscriberStep, hm, hd, hf, Api.matchingNonOpt,
            Api.fetchLimits, List.filter_cons, pymax_eq, max_comm]

/-- Characterization of the enumerate loop of `get_comments`: it yields the
successful bodies among the first `(limit - i)` comments. -/
theorem getCommentsAux_eq (commentBodies : List (Option String)) :
    ∀ i limit : Int,
      Api.getCommentsAux commentBodies i limit =
        (commentBodies.take (limit - i).toNat).filterMap id := by
  induction commentBodies with
  | nil => intro i limit; simp [Api.getCommentsAux]
  | cons c rest ih =>
    intro i limit
    unfold Api.getCommentsAux
    by_cases h : i ≥ limit
    · rw [if_pos h]
      have : (limit - i).toNat = 0 := by omega
      simp [this]
    · rw [if_neg h, ih (i + 1) limit]
      have h1 : (limit - i).toNat = (limit - (i + 1)).toNat + 1 := by omega
      rw [h1, List.take_succ_cons]
      cases c <;> simp [List.filterMap_cons]

/-- Closed form of `get_comments`: it returns exactly the successful bodies among the first
`limit.toNat` comments (so the clamp of a nonpositive limit to `0` is
observationally invisible). -/
theorem get_comments_eq (commentBodies : List (Option String)) (limit : Int) :
    Api.get_comments commentBodies limit =
      (commentBodies.take limit.toNat).filterMap id := by
  unfold Api.get_comments
  rw [getCommentsAux_eq]
  norm_num

/-- The nonpositive clamp of the limit does not change `get_comments`. -/
theorem get_comments_clamp (commentBodies : List (Option String)) (m : Int) :
    Api.get_comments commentBodies (max 0 m) = Api.get_comments commentBodies m := by
  rw [get_comments_eq, get_comments_eq]
  have : (max 0 m).toNat = m.toNat := by
    rcases le_total 0 m with h | h
    · rw [max_eq_right h]
    · rw [max_eq_left h, Int.toNat_of_nonpos h]
      rfl
  rw [this]

end Scraper

namespace Scraper

/-- Concrete sample submission used by witnesses: no flair, no author. -/
def sampleSub : Submission :=
  { id := "p1", title := "t", selftext := "b", url := "u", score := 1,
    subreddit := "r", author := none, created_utc := 0, over_18 := false,
    is_self := true, link_flair_text := none, num_comments := 3,
    commentBodies := [some "c1", none, some "c2", some "c3"] }

/-- C2: with the flair filter set, `matches_filters` compares the lower-cased
flair text (empty string when the flair is absent) for membership in the
lower-cased allowed set, leaving the other dimensions untouched; an item
without flair is rejected unless the allowed set contains the empty string.
The `main.py` copy of the predicate agrees. -/
theorem c2_flair_dimension (s : Submission) (f : FilterParams)
    (h : truthyList f.flair = true) :
    (Api.matches_filters s f =
        (Api.matches_filters s {f with flair := none} &&
          ((f.flair.getD []).map pyLower).contains (flair_text s))) ∧
      flair_text s = pyLower (s.link_flair_text.getD "") ∧
      (s.link_flair_text = none →
        ((f.flair.getD []).map pyLower).contains "" = false →
        Api.matches_filters s f = false) ∧
      MainPy.matches_filters s f = Api.matches_filters s f := by
  have hnone : Api.flairOk s {f with flair := none} = true := by
    simp [Api.flairOk, truthyList]
  have hset : Api.flairOk s f =
      ((f.flair.getD []).map pyLower).contains (flair_text s) := by
    simp [Api.flairOk, h]
  have hmain : Api.matches_filters s f =
      (Api.matches_filters s {f with flair := none} &&
        ((f.flair.getD []).map pyLower).contains (flair_text s)) := by
    rw [matches_filters_conj, matches_filters_conj, hnone, hset, Bool.and_true]
    rfl
  have htext : flair_text s = pyLower (s.link_flair_text.getD "") := by
    cases hlf : s.link_flair_text with
    | none => simp [flair_text, hlf]; rfl
    | some t =>
      simp only [flair_text, hlf, Option.getD_some]
      by_cases ht : t = ""
      · subst ht; simp; rfl
      · simp [ht]
  refine ⟨hmain, htext, ?_, matches_filters_agree s f⟩
  intro hlf hmem
  rw [hmain]
  have : flair_text s = "" := by simp [flair_text, hlf]
  rw [this, hmem, Bool.and_false]

/-- Submission/criteria pair exercising the flair witness: no flair on the
item, allowed set without the empty string. -/
def c2f : FilterParams := { flair := some ["News"] }

/-- Witness for C2: the sample flairless submission is rejected by a criteria
whose allowed-flair set does not contain the empty string. -/
theorem c2_flair_dimension_witness :
    Api.matches_filters sampleSub c2f = false :=
  (c2_flair_dimension sampleSub c2f (by decide)).2.2.1 rfl (by decide)

/-- C3: `matches_filters` is a pure conjunction over its six dimensions —
relaxing any single dimension of the criteria to its no-constraint value
(`none` for subreddits/keywords/min_score/is_self/flair, `true` for
include_nsfw) preserves a match; the `main.py` copy of the predicate agrees. -/
theorem c3_matches_monotone (s : Submission) (f : FilterParams)
    (h : Api.matches_filters s f = true) :
    Api.matches_filters s {f with subreddits := none} = true ∧
      Api.matches_filters s {f with keywords := none} = true ∧
      Api.matches_filters s {f with min_score := none} = true ∧
      Api.matches_filters s {f with include_nsfw := true} = true ∧
      Api.matches_filters s {f with is_self := none} = true ∧
      Api.matches_filters s {f with flair := none} = true ∧
      MainPy.matches_filters s f = Api.matches_filters s f := by
  simp only [matches_filters_conj, Bool.and_eq_true] at h
  obtain ⟨⟨⟨⟨⟨h1, h2⟩, h3⟩, h4⟩, h5⟩, h6⟩ := h
  refine ⟨?_, ?_, ?_, ?_, ?_, ?_, matches_filters_agree s f⟩
  · rw [matches_filters_conj]
    show (Api.subredditOk s {f with subreddits := none} && Api.keywordOk s f &&
      Api.scoreOk s f && Api.nsfwOk s f && Api.selfOk s f && Api.flairOk s f) = true
    rw [h2, h3, h4, h5, h6]
    simp [Api.subredditOk, truthyList]
  · rw [matches_filters_conj]
    show (Api.subredditOk s f && Api.keywordOk s {f with keywords := none} &&
      Api.scoreOk s f && Api.nsfwOk s f && Api.selfOk s f && Api.flairOk s f) = true
    rw [h1, h3, h4, h5, h6]
    simp [Api.keywordOk, truthyList]
  · rw [matches_filters_conj]
    show (Api.subredditOk s f && Api.keywordOk s f &&
      Api.scoreOk s {f with min_score := none} && Api.nsfwOk s f && Api.selfOk s f &&
      Api.flairOk s f) = true
    rw [h1, h2, h4, h5, h6]
    simp [Api.scoreOk]
  · rw [matches_filters_conj]
    show (Api.subredditOk s f && Api.keywordOk s f && Api.scoreOk s f &&
      Api.nsfwOk s {f with include_nsfw := true} && Api.selfOk s f && Api.flairOk s f) = true
    rw [h1, h2, h3, h5, h6]
    simp [Api.nsfwOk]
  · rw [matches_filters_conj]
    show (Api.subredditOk s f && Api.keywordOk s f && Api.scoreOk s f &&
      Api.nsfwOk s f && Api.selfOk s {f with is_self := none} && Api.flairOk s f) = true
    rw [h1, h2, h3, h4, h6]
    simp [Api.selfOk]
  · rw [matches_filters_conj]
    show (Api.subredditOk s f && Api.keywordOk s f && Api.scoreOk s f &&
      Api.nsfwOk s f && Api.selfOk s f && Api.flairOk s {f with flair := none}) = true
    rw [h1, h2, h3, h4, h5]
    simp [Api.flairOk, truthyList]

/-- Criteria with two constrained dimensions, matched by `sampleSub`. -/
def c3f : FilterParams := { subreddits := some ["R"], min_score := some 0 }

/-- Witness for C3: relaxing the subreddit dimension of a matching criteria
keeps the item matching. -/
theorem c3_matches_monotone_witness :
    Api.matches_filters sampleSub {c3f with subreddits := none} = true :=
  (c3_matches_monotone sampleSub c3f (by decide)).1

/-- C9: a present-but-empty list for subreddits, keywords or flair is falsy in
Python, so `matches_filters` treats it exactly like an absent constraint: the
predicate coincides with the `none` version and the dimension check passes
even though no value is a member of the empty set.  The `main.py` copy of the
predicate agrees. -/
theorem c9_empty_list_no_constraint (s : Submission) (f : FilterParams) :
    (Api.matches_filters s {f with subreddits := some []} =
        Api.matches_filters s {f with subreddits := none}) ∧
      (Api.matches_filters s {f with keywords := some []} =
        Api.matches_filters s {f with keywords := none}) ∧
      (Api.matches_filters s {f with flair := some []} =
        Api.matches_filters s {f with flair := none}) ∧
      Api.subredditOk s {f with subreddits := some []} = true ∧
      Api.keywordOk s {f with keywords := some []} = true ∧
      Api.flairOk s {f with flair := some []} = true ∧
      (MainPy.matches_filters s {f with subreddits := some []} =
        MainPy.matches_filters s {f with subreddits := none}) ∧
      (MainPy.matches_filters s {f with keywords := some []} =
        MainPy.matches_filters s {f with keywords := none}) ∧
      (MainPy.matches_filters s {f with flair := some []} =
        MainPy.matches_filters s {f with flair := none}) := by
  have hsub : Api.matches_filters s {f with subreddits := some []} =
      Api.matches_filters s {f with subreddits := none} := by
    rw [matches_filters_conj, matches_filters_conj,
      show Api.subredditOk s {f with subreddits := some []} = true by
        simp [Api.subredditOk, truthyList],
      show Api.subredditOk s {f with subreddits := none} = true by
        simp [Api.subredditOk, truthyList]]
    rfl
  have hkw : Api.matches_filters s {f with keywords := some []} =
      Api.matches_filters s {f with keywords := none} := by
    rw [matches_filters_conj, matches_filters_conj,
      show Api.keywordOk s {f with keywords := some []} = true by
        simp [Api.keywordOk, truthyList],
      show Api.keywordOk s {f with keywords := none} = true by
        simp [Api.keywordOk, truthyList]]
    rfl
  have hfl : Api.matches_filters s {f with flair := some []} =
      Api.matches_filters s {f with flair := none} := by
    rw [matches_filters_conj, matches_filters_conj,
      show Api.flairOk s {f with flair := some []} = true by
        simp [Api.flairOk, truthyList],
      show Api.flairOk s {f with flair := none} = true by
        simp [Api.flairOk, truthyList]]
    rfl
  refine ⟨hsub, hkw, hfl, by simp [Api.subredditOk, truthyList],
    by simp [Api.keywordOk, truthyList], by simp [Api.flairOk, truthyList],
    ?_, ?_, ?_⟩
  · rw [matches_filters_agree, matches_filters_agree]; exact hsub
  · rw [matches_filters_agree, matches_filters_agree]; exact hkw
  · rw [matches_filters_agree, matches_filters_agree]; exact hfl

/-- Bool helper: `isEmpty` is `false` exactly on nonempty lists. -/
theorem isEmpty_false_iff {α : Type} (l : List α) : l.isEmpty = false ↔ l ≠ [] := by
  cases l <;> simp

/-- Bool helper: `isEmpty` is `true` exactly on the empty list. -/
theorem isEmpty_true_iff {α : Type} (l : List α) : l.isEmpty = true ↔ l = [] := by
  cases l <;> simp

/-- C1: per item, the dispatcher of `reddit_stream_worker` performs an
archival POST iff the sink URL is truthy and some matching subscriber has
`do_not_save = false`; at most (then exactly) one POST is made, whose body is
the projection re-augmented with comments fetched at the maximum
`comments_limit` over the non-opted-out matching subscribers that set
`fetch_comments`, and without a comments key when no such subscriber exists. -/
theorem c1_archival_aggregation (torus : Option String)
    (subs : List Api.Subscriber) (s : Submission) :
    ((Api.reddit_stream_worker_step torus subs s).2 ≠ [] ↔
        (truthyStr torus = true ∧ Api.matchingNonOpt s subs ≠ [])) ∧
      (Api.reddit_stream_worker_step torus subs s).2.length ≤ 1 ∧
      (∀ m : Int, listMax (Api.fetchLimits s subs) = some m →
        truthyStr torus = true → Api.matchingNonOpt s subs ≠ [] →
        (Api.reddit_stream_worker_step torus subs s).2 =
          [Api.prepare_post_data s ++
            [("comments", Val.list (Api.get_comments s.commentBodies m))]]) ∧
      (Api.fetchLimits s subs = [] → truthyStr torus = true →
        Api.matchingNonOpt s subs ≠ [] →
        (Api.reddit_stream_worker_step torus subs s).2 = [Api.prepare_post_data s]) := by
  have hst := foldl_subscriberStep_eq s subs ⟨[], false, false, 0⟩
  simp only [Api.reddit_stream_worker_step, hst, Bool.false_or, List.nil_append]
  refine ⟨?_, ?_, ?_, ?_⟩
  · cases hL : (Api.matchingNonOpt s subs).isEmpty with
    | true =>
      rw [isEmpty_true_iff] at hL
      simp [hL]
    | false =>
      cases ht : truthyStr torus with
      | true => simp [ht, hL, (isEmpty_false_iff _).mp hL]
      | false => simp [ht]
  · cases hL : (Api.matchingNonOpt s subs).isEmpty <;>
      cases ht : truthyStr torus <;> simp
  · intro m hmax ht hne
    have hL : (Api.matchingNonOpt s subs).isEmpty = false :=
      (isEmpty_false_iff _).mpr hne
    have hF : Api.fetchLimits s subs ≠ [] := by
      intro he
      rw [he] at hmax
      simp [listMax] at hmax
    have hFe : (Api.fetchLimits s subs).isEmpty = false := (isEmpty_false_iff _).mpr hF
    rw [hL, ht, hFe]
    simp only [Bool.not_false, Bool.and_self, if_true, Api.projectPost, if_pos]
    rw [foldl_max_of_listMax _ 0 m hmax, get_comments_clamp]
  · intro hF ht hne
    have hL : (Api.matchingNonOpt s subs).isEmpty = false :=
      (isEmpty_false_iff _).mpr hne
    rw [hL, ht, hF]
    simp [Api.projectPost]

/-- Registry snapshot for the C1 witness: three non-opted-out subscribers with
unconstrained criteria, all requesting comments with limits 0, 3 and 7. -/
def c1subs : List Api.Subscriber :=
  [{ ws := 1, filters := { fetch_comments := true, comments_limit := 0 }, do_not_save := false },
   { ws := 2, filters := { fetch_comments := true, comments_limit := 3 }, do_not_save := false },
   { ws := 3, filters := { fetch_comments := true, comments_limit := 7 }, do_not_save := false }]

/-- Witness for C1: with the sink configured and three matching subscribers
requesting comment limits 0, 3 and 7, exactly one archival body is produced,
carrying comments fetched at limit 7. -/
theorem c1_archival_aggregation_witness :
    (Api.reddit_stream_worker_step (some "http://torus") c1subs sampleSub).2 =
      [Api.prepare_post_data sampleSub ++
        [("comments", Val.list (Api.get_comments sampleSub.commentBodies 7))]] :=
  (c1_archival_aggregation (some "http://torus") c1subs sampleSub).2.2.1 7
    (by decide) (by decide) (by decide)

/-- C10: for every submission and every integer limit, `get_comments` in
`reddit_scraper_api.py` returns at most `max(limit, 0)` comment bodies and is
total (exceptions while reading a body are caught, logged and the comment
omitted — modelled by the `none` entries being dropped); for `limit ≤ 0`
(every integer of the form `-n`) it returns the empty list, and in general it
returns exactly the successfully-read bodies among the first `limit` comments. -/
theorem c10_get_comments_safety (commentBodies : List (Option String)) (limit : Int) :
    Api.get_comments commentBodies limit =
        (commentBodies.take limit.toNat).filterMap id ∧
      (Api.get_comments commentBodies limit).length ≤ limit.toNat ∧
      ∀ n : Nat, Api.get_comments commentBodies (-(n : Int)) = [] := by
  refine ⟨get_comments_eq _ _, ?_, ?_⟩
  · rw [get_comments_eq]
    calc ((commentBodies.take limit.toNat).filterMap id).length
        ≤ (commentBodies.take limit.toNat).length := List.length_filterMap_le _ _
      _ ≤ limit.toNat := by simp
  · intro n
    rw [get_comments_eq]
    have : (-(n : Int)).toNat = 0 := by omega
    simp [this]

/-- C4 counterexample: the claim says a negative `comments_limit` makes
`FilterParams` construction fail, but the pydantic model declares no range
constraint, so construction at `comments_limit = -1` succeeds. -/
theorem c4_counterexample :
    FilterParams.construct none none none true none none false (-1) =
      Except.ok
        { subreddits := none, keywords := none, min_score := none,
          include_nsfw := true, is_self := none, flair := none,
          fetch_comments := false, comments_limit := -1 } := rfl

/-- C4 (amended): `FilterParams` construction performs no range validation on
`comments_limit` — it succeeds for every integer, negatives included, and
preserves the value, so the match and dispatch paths can receive criteria
carrying a negative limit. -/
theorem c4_no_negative_limit_validation (subreddits keywords : Option (List String))
    (min_score : Option Int) (include_nsfw : Bool) (tri : Option Bool)
    (flair : Option (List String)) (fetch_comments : Bool) (comments_limit : Int) :
    FilterParams.construct subreddits keywords min_score include_nsfw tri flair
        fetch_comments comments_limit =
      Except.ok
        { subreddits := subreddits, keywords := keywords, min_score := min_score,
          include_nsfw := include_nsfw, is_self := tri, flair := flair,
          fetch_comments := fetch_comments, comments_limit := comments_limit } := rfl

/-- C5 counterexample: the claim says "the projection function" returns
exactly the twelve wire-shape keys, but `prepare_post_data` in
`reddit_scraper_api.py` (one of the two cited projection functions) returns
only eight keys — no author, created_utc, over_18 or is_self. -/
theorem c5_counterexample :
    (Api.prepare_post_data sampleSub).map Prod.fst ≠
      ["id", "title", "selftext", "url", "score", "subreddit", "author",
        "created_utc", "over_18", "is_self", "flair", "num_comments"] := by
  decide

/-- C5 (amended): `prepare_post_data` in `main.py` returns exactly the twelve
claimed keys (author and flair `null` when absent), plus a trailing `comments`
key when replies were requested; `prepare_post_data` in
`reddit_scraper_api.py` instead returns exactly eight keys, with flair the
empty string (never null) when absent. -/
theorem c5_projection_shape (s : Submission) (comments : List String) :
    (MainPy.prepare_post_data s).map Prod.fst =
        ["id", "title", "selftext", "url", "score", "subreddit", "author",
          "created_utc", "over_18", "is_self", "flair", "num_comments"] ∧
      (MainPy.prepare_post_data s ++ [("comments", Val.list comments)]).map Prod.fst =
        ["id", "title", "selftext", "url", "score", "subreddit", "author",
          "created_utc", "over_18", "is_self", "flair", "num_comments", "comments"] ∧
      List.lookup "author" (MainPy.prepare_post_data s) =
        some (match s.author with
              | some a => Val.s a
              | none => Val.null) ∧
      List.lookup "flair" (MainPy.prepare_post_data s) =
        some (match s.link_flair_text with
              | some t => Val.s t
              | none => Val.null) ∧
      (Api.prepare_post_data s).map Prod.fst =
        ["id", "title", "selftext", "url", "score", "subreddit", "flair",
          "num_comments"] ∧
      List.lookup "flair" (Api.prepare_post_data s) =
        some (Val.s (s.link_flair_text.getD "")) :=
  ⟨rfl, rfl, rfl, rfl, rfl, rfl⟩

/-- C6: the one-shot query pulls `limit * 2` items from the selected listing,
and (whenever upstream honours that bound) returns the projections of the
matching posts in upstream order, truncated to the first `limit` matches;
returning fewer than `limit` results is still a successful response. -/
theorem c6_pull_query (upstream : String → Int → List Submission)
    (f : FilterParams) (fc : Bool) (cl : Int) (sort_by : String) (limit : Int)
    (hs : Api.sort_keys.contains (pyLower sort_by) = true)
    (hlen : ((upstream (pyLower sort_by) (limit * 2)).length : Int) ≤ limit * 2) :
    Api.scrape upstream f fc cl sort_by limit =
        Except.ok ((((upstream (pyLower sort_by) (limit * 2)).filter
          fun p => Api.matches_filters p f).map (Api.projectPost fc cl)).take
            limit.toNat) ∧
      ∀ res, Api.scrape upstream f fc cl sort_by limit = Except.ok res →
        res.length ≤ limit.toNat := by
  have heq : Api.scrape upstream f fc cl sort_by limit =
      Except.ok ((((upstream (pyLower sort_by) (limit * 2)).filter
        fun p => Api.matches_filters p f).map (Api.projectPost fc cl)).take
          limit.toNat) := by
    simp only [Api.scrape, hs, Bool.not_true, Bool.false_eq_true, if_false]
    by_cases hl : (0 : Int) < limit
    · rw [scrapeLoop_eq f fc cl limit _ [] (by simpa using hl)]
      simp
    · have hnil : upstream (pyLower sort_by) (limit * 2) = [] := by
        cases hpull : upstream (pyLower sort_by) (limit * 2) with
        | nil => rfl
        | cons a l =>
          exfalso
          rw [hpull] at hlen
          rw [List.length_cons] at hlen
          push_cast at hlen
          omega
      rw [hnil]
      simp [Api.scrapeLoop]
  refine ⟨heq, ?_⟩
  intro res hres
  rw [heq] at hres
  injection hres with hres
  rw [← hres]
  calc ((((upstream (pyLower sort_by) (limit * 2)).filter
          fun p => Api.matches_filters p f).map (Api.projectPost fc cl)).take
            limit.toNat).length
      ≤ limit.toNat := List.length_take_le _ _

/-- Upstream listing for the C6 witness: two posts, one in subreddit `r` and
one in subreddit `q`. -/
def c6upstream : String → Int → List Submission :=
  fun _ _ => [sampleSub, { sampleSub with id := "p2", subreddit := "q" }]

/-- Criteria for the C6 witness: only subreddit `r` passes the filter. -/
def c6f : FilterParams := { subreddits := some ["r"] }

/-- Witness for C6: a pull with limit 3 over a two-post listing returns
exactly the matching post, projected, in order. -/
theorem c6_pull_query_witness :
    Api.scrape c6upstream c6f false 5 "new" 3 =
      Except.ok ((((c6upstream (pyLower "new") 6).filter
        fun p => Api.matches_filters p c6f).map (Api.projectPost false 5)).take
          (Int.toNat 3)) :=
  (c6_pull_query c6upstream c6f false 5 "new" 3 (by decide) (by decide)).1

/-- C7: on the subscription endpoint, a failed receive-and-parse of the first
message produces exactly the structured error object followed by a close and
leaves the registry unchanged; a subscriber is appended (exactly one, at the
tail) only when the payload parses successfully, in which case no error is
sent. -/
theorem c7_malformed_subscription (registry : List Api.Subscriber) (ws : Nat) :
    (∀ e : String,
        Api.websocket_subscribe registry ws (Except.error e) =
          (registry,
            [Api.WsEvent.sent [("error", Val.s Api.invalid_payload_msg)],
              Api.WsEvent.closed])) ∧
      ∀ (f : FilterParams) (d : Bool),
        Api.websocket_subscribe registry ws (Except.ok (f, d)) =
          (registry ++ [{ ws := ws, filters := f, do_not_save := d }], []) :=
  ⟨fun _ => rfl, fun _ _ => rfl⟩

/-- C8: the `/scrape` handler raises exactly HTTP 400 with the fixed detail
message when the lower-cased sort value is outside the four-key enumerated
set, and raises no validation error (returns a result) for every value whose
lower-casing is in the set. -/
theorem c8_sort_validation (upstream : String → Int → List Submission)
    (f : FilterParams) (fc : Bool) (cl : Int) (sort_by : String) (limit : Int) :
    (Api.sort_keys.contains (pyLower sort_by) = false →
        Api.scrape upstream f fc cl sort_by limit =
          Except.error (400, Api.invalid_sort_msg)) ∧
      (Api.sort_keys.contains (pyLower sort_by) = true →
        (Api.scrape upstream f fc cl sort_by limit).isOk = true) ∧
      Api.sort_keys = ["hot", "new", "top", "rising"] := by
  refine ⟨?_, ?_, rfl⟩
  · intro h
    unfold Api.scrape
    rw [h]
    simp
  · intro h
    unfold Api.scrape
    rw [h]
    simp [Except.isOk, Except.toBool]

/-- Witness for C8: `"best"` is rejected with the 400 detail message while
`"Hot"` (case-insensitively valid) yields a successful response. -/
theorem c8_sort_validation_witness :
    Api.scrape (fun _ _ => []) {} false 5 "best" 10 =
        Except.error (400, Api.invalid_sort_msg) ∧
      (Api.scrape (fun _ _ => []) {} false 5 "Hot" 10).isOk = true :=
  ⟨(c8_sort_validation (fun _ _ => []) {} false 5 "best" 10).1 (by decide),
    (c8_sort_validation (fun _ _ => []) {} false 5 "Hot" 10).2.1 (by decide)⟩

end Scraper
